import Mathlib

/-!
Verification of the binding layer of the angular8-yandex-maps repository.

The repository wraps a third-party mapping SDK as declarative UI components.
We shallowly embed the wrapper classes: component inputs become structure
fields, imperative SDK calls become entries of an explicit call trace, and
observable emissions become lists of events fed to the embedded methods.
Opaque JS values whose content the wrapper never inspects (options objects,
geometries, features, config objects) are embedded as `Nat`; a possibly
undefined JS value is an `Option`.
-/

namespace NgYandexMap

/-! ## Data model of `yandex-map.component.ts` -/

/-- Embeds `IYandexMapState`: the wrapper touches only the `zoom` and
`center` fields, every other property of the state object is kept in the
opaque association list `other`. -/
structure IYandexMapState where
  zoom : Option Nat
  center : Option Nat
  other : List (String × Nat)
  deriving DecidableEq, Repr

/-- Embeds the multiroute model object: the wrapper assigns only
`referencePoints`; remaining properties are kept in `other`. -/
structure MultirouteModel where
  referencePoints : Option Nat
  other : List (String × Nat)
  deriving DecidableEq, Repr

/-- Embeds `YandexPlacemarkComponent` (the fields `yandex-map.component.ts`
reads from it). -/
structure YandexPlacemarkComponent where
  geometry : Nat
  placemarkProperties : Nat
  placemarkOptions : Nat
  deriving DecidableEq, Repr

/-- Embeds `YandexMultirouteComponent` (the fields `yandex-map.component.ts`
reads and writes: the `referencePoints` input and the mutable
`multirouteModel`, which starts absent when not supplied). -/
structure YandexMultirouteComponent where
  referencePoints : Option Nat
  multirouteModel : Option MultirouteModel
  multirouteOptions : Nat
  deriving DecidableEq, Repr

/-- Embeds `YandexGeoobjectComponent` (the fields `yandex-map.component.ts`
reads from it). -/
structure YandexGeoobjectComponent where
  geoObjectFeature : Nat
  geoObjectOptions : Nat
  deriving DecidableEq, Repr

/-- Embeds `YandexMapComponent`: its inputs and its content-children query
lists. -/
structure YandexMapComponent where
  center : Option Nat
  zoom : Option Nat
  mapState : IYandexMapState
  mapOptions : Nat
  placemarks : List YandexPlacemarkComponent
  multiroutes : List YandexMultirouteComponent
  geoObjects : List YandexGeoobjectComponent
  deriving DecidableEq, Repr

/-- One imperative call against `YandexMapService`, recorded with the exact
arguments the component passes. -/
inductive ServiceCall where
  | createMap (mapId : String) (state : IYandexMapState) (options : Nat)
  | createPlacemark (geometry : Nat) (props : Nat) (options : Nat)
  | createMultiroute (model : Option MultirouteModel) (options : Nat)
  | createGeoObject (feature : Nat) (options : Nat)
  deriving DecidableEq, Repr

/-- Embeds `YandexMapComponent._combineInputs`: mutates `mapState.zoom` and
`mapState.center` to the `zoom` and `center` inputs, and for every
multiroute child creates `multirouteModel` if absent and assigns its
`referencePoints` from the `referencePoints` input. -/
def _combineInputs (c : YandexMapComponent) : YandexMapComponent :=
  { c with
    mapState := { c.mapState with zoom := c.zoom, center := c.center },
    multiroutes := c.multiroutes.map (fun m =>
      let model := match m.multirouteModel with
        | none => ({ referencePoints := none, other := [] } : MultirouteModel)
        | some mm => mm
      { m with
        multirouteModel := some { model with referencePoints := m.referencePoints } }) }

/-- Embeds `YandexMapComponent._createMapWithObjects`, with the
`initMap()` observable represented by its list of emissions.  The
`take(1)` pipe makes the subscription callback run exactly once, on the
first emission, so the produced service-call trace depends only on whether
at least one emission arrives.  The callback combines the inputs, calls
`createMap`, then registers every placemark, then every multiroute, then
every geo-object. -/
def _createMapWithObjects (c : YandexMapComponent) (uniqueMapId : String)
    (initMapEmissions : List Unit) : List ServiceCall :=
  match initMapEmissions with
  | [] => []
  | _ :: _ =>
    let c' := _combineInputs c
    ServiceCall.createMap uniqueMapId c'.mapState c'.mapOptions ::
      (c'.placemarks.map fun p =>
        ServiceCall.createPlacemark p.geometry p.placemarkProperties p.placemarkOptions) ++
      (c'.multiroutes.map fun m =>
        ServiceCall.createMultiroute m.multirouteModel m.multirouteOptions) ++
      (c'.geoObjects.map fun g =>
        ServiceCall.createGeoObject g.geoObjectFeature g.geoObjectOptions)

/-- Embeds `YandexMapComponent.ngOnInit`: generates the unique map id (the
random generation itself is an environment input `freshId`, the value
`_setUniqueMapIdOfMap` stores in `_uniqueMapId`) and then runs
`_createMapWithObjects`. -/
def ngOnInit (c : YandexMapComponent) (freshId : String)
    (initMapEmissions : List Unit) : List ServiceCall :=
  _createMapWithObjects c freshId initMapEmissions

/-- Returns `true` exactly on `createMap` calls. -/
def isCreateMap : ServiceCall → Bool
  | ServiceCall.createMap _ _ _ => true
  | _ => false

/-- The `state` argument of the first `createMap` call of a trace, when
one exists. -/
def createMapStateArg (trace : List ServiceCall) : Option IYandexMapState :=
  (trace.filterMap fun s =>
    match s with
    | ServiceCall.createMap _ st _ => some st
    | _ => none).head?

/-! ## Data model of `angular-yandex-maps.module.ts` -/

/-- The injection tokens the module provides. -/
inductive InjectionToken where
  | YA_MAP_CONFIG
  deriving DecidableEq, Repr

/-- A `useValue` provider entry, as produced by `forRoot`. -/
structure Provider where
  provide : InjectionToken
  useValue : Nat
  deriving DecidableEq, Repr

/-- The module classes a `ModuleWithProviders` can reference. -/
inductive NgModuleRef where
  | AngularYandexMapsModule
  deriving DecidableEq, Repr

/-- Embeds the Angular `ModuleWithProviders` return shape of `forRoot`. -/
structure ModuleWithProviders where
  ngModule : NgModuleRef
  providers : List Provider
  deriving DecidableEq, Repr

/-- Embeds `AngularYandexMapsModule.forRoot`: wraps the supplied config
object (opaque, embedded as `Nat`) in a single `YA_MAP_CONFIG` provider. -/
def forRoot (config : Nat) : ModuleWithProviders :=
  { ngModule := NgModuleRef.AngularYandexMapsModule,
    providers := [{ provide := InjectionToken.YA_MAP_CONFIG, useValue := config }] }

/-! ## Data model of `ya-clusterer.directive.ts` (src/unnamed/part_000) -/

/-- Embeds Angular `SimpleChange` as far as the directive reads it: only
`currentValue` is consulted. -/
structure SimpleChange where
  currentValue : Nat
  deriving DecidableEq, Repr

/-- Embeds the `SimpleChanges` record delivered to
`YaClustererDirective.ngOnChanges`: the directive destructures only the
`options` entry, present exactly when the `options` input changed. -/
structure ClustererChanges where
  options : Option SimpleChange
  deriving DecidableEq, Repr

/-- The directive state `YaClustererDirective._updateClusterer` touches:
`_clusterer` is the stored SDK clusterer reference (a `Nat` handle), unset
until `createClusterer` ran. -/
structure YaClustererState where
  _clusterer : Option Nat
  deriving DecidableEq, Repr

/-- One imperative call against the SDK clusterer object. -/
inductive ClustererSdkCall where
  | optionsSet (clusterer : Nat) (value : Nat)
  deriving DecidableEq, Repr

/-- Embeds `YaClustererDirective._updateClusterer`: returns early when
`_clusterer` is unset; otherwise, when the `options` entry of the changes
is present, calls `clusterer.options.set(options.currentValue)`.  The
result pairs the (never reassigned) directive state with the list of SDK
calls performed. -/
def _updateClusterer (st : YaClustererState) (changes : ClustererChanges) :
    YaClustererState × List ClustererSdkCall :=
  match st._clusterer with
  | none => (st, [])
  | some cl =>
    match changes.options with
    | none => (st, [])
    | some ch => (st, [ClustererSdkCall.optionsSet cl ch.currentValue])

/-- Embeds `YaClustererDirective.ngOnChanges`, which only delegates to
`_updateClusterer`. -/
def clustererNgOnChanges (st : YaClustererState) (changes : ClustererChanges) :
    YaClustererState × List ClustererSdkCall :=
  _updateClusterer st changes

/-! ### Event listeners of the clusterer (`_addEventListeners`) -/

/-- An SDK event delivered to the clusterer.  The wrapper forwards
`e.originalEvent.type`; for events fired directly on the clusterer this is
the type the event was delivered under, so the embedding carries that one
string. -/
structure ClustererSdkEvent where
  eventType : String
  deriving DecidableEq, Repr

/-- The output emitters of `YaClustererDirective`. -/
inductive ClustererOutput where
  | ready
  | hint
  | mapChange
  | optionsChange
  | parentChange
  deriving DecidableEq, Repr

/-- One emission of a clusterer output: the payload carries the clusterer
instance and the original event type (the `ymaps` global and the raw event
object of the payload are not modelled). -/
structure ClustererEmission where
  output : ClustererOutput
  instanceRef : Nat
  eventType : String
  deriving DecidableEq, Repr

/-- Embeds the `handlers` array of
`YaClustererDirective._addEventListeners`: each entry subscribes a
callback under one or several SDK event names (`events.add` with an array
subscribes the callback to each listed name). -/
def clustererHandlers (clusterer : Nat) :
    List (List String × (ClustererSdkEvent → ClustererEmission)) :=
  [ (["hintclose", "hintopen"], fun e =>
      { output := ClustererOutput.hint, instanceRef := clusterer,
        eventType := e.eventType }),
    (["mapchange"], fun e =>
      { output := ClustererOutput.mapChange, instanceRef := clusterer,
        eventType := e.eventType }),
    (["optionschange"], fun e =>
      { output := ClustererOutput.optionsChange, instanceRef := clusterer,
        eventType := e.eventType }),
    (["parentchange"], fun e =>
      { output := ClustererOutput.parentChange, instanceRef := clusterer,
        eventType := e.eventType }) ]

/-- Delivers one SDK event to the listeners `_addEventListeners`
registered: every handler subscribed under the event type fires, in
registration order. -/
def deliverClustererEvent (clusterer : Nat) (e : ClustererSdkEvent) :
    List ClustererEmission :=
  ((clustererHandlers clusterer).filter fun h =>
    h.1.contains e.eventType).map fun h => h.2 e

/-! ### Content children of the clusterer (`createClusterer`)

`createClusterer` subscribes to the `placemarks` and `geoObjects` query
lists (each prefixed by `startWith` with the current list); both
subscriptions run the same logic — for every child on the emitted list
whose `id` is unset, build its SDK object and add it to the clusterer —
so one child model covers both. -/

/-- A placemark or geo-object content child, as `createClusterer` sees it:
a fixed identity `pid` (the JS object identity of the directive) and the
mutable `id` field the child create method fills in. -/
structure ClustererChild where
  pid : Nat
  id : Option String
  deriving DecidableEq, Repr

/-- Modelled from the spec: `YaPlacemarkDirective.createPlacemark` and
`YaGeoobjectDirective.createGeoObject` are not under src/; per the spec,
children register themselves with the parent clusterer, and the create
method marks the directive with a generated `id` (the guard in
`createClusterer` reads it back).  Returns the updated child and the
handle added to the clusterer. -/
def createChild (c : ClustererChild) : ClustererChild × Nat :=
  ({ c with id := some "generated-id" }, c.pid)

/-- One emission of a content-children query list, as processed by the
subscription body in `createClusterer`: `forEach` over the list, and for
each child with unset `id`, create its SDK object (which marks the child)
and record the `add` call.  Returns the children after the pass and the
handles added, in order. -/
def processChildrenEmission : List ClustererChild → List ClustererChild × List Nat
  | [] => ([], [])
  | c :: cs =>
    let rest := processChildrenEmission cs
    if c.id.isNone then
      ((createChild c).1 :: rest.1, (createChild c).2 :: rest.2)
    else
      (c :: rest.1, rest.2)

/-- What can happen on the children stream after `createClusterer` ran:
the query list re-emits (`listEmit`), or a new child directive enters the
content (`newChild`, with unset `id`). -/
inductive ClustererStreamEvent where
  | listEmit
  | newChild (pid : Nat)
  deriving DecidableEq, Repr

/-- The `pid` values of the children added by a stream of events. -/
def newPids : List ClustererStreamEvent → List Nat
  | [] => []
  | ClustererStreamEvent.listEmit :: es => newPids es
  | ClustererStreamEvent.newChild pid :: es => pid :: newPids es

/-- Runs the `createClusterer` subscription over a stream of events,
threading the mutable children through: each `listEmit` processes the
current children, each `newChild` appends a fresh child with unset `id`.
Returns the final children and the concatenated trace of `add` calls. -/
def runClustererEvents :
    List ClustererChild → List ClustererStreamEvent → List ClustererChild × List Nat
  | cs, [] => (cs, [])
  | cs, ClustererStreamEvent.listEmit :: es =>
    let step := processChildrenEmission cs
    let rest := runClustererEvents step.1 es
    (rest.1, step.2 ++ rest.2)
  | cs, ClustererStreamEvent.newChild pid :: es =>
    runClustererEvents (cs ++ [{ pid := pid, id := none }]) es

/-- The trace of clusterer `add` calls produced by `createClusterer`: the
`startWith` pipe delivers the current children immediately, then the
stream events follow. -/
def clustererChildrenTrace (initial : List ClustererChild)
    (es : List ClustererStreamEvent) : List Nat :=
  (runClustererEvents initial (ClustererStreamEvent.listEmit :: es)).2

/-! ## Data model of `ya-control.directive.ts` -/

/-- The directive state of `YaControlDirective` that its change handling
reads: the stored SDK control reference, unset until initialization. -/
structure YaControlState where
  control : Option Nat
  deriving DecidableEq, Repr

/-- The `SimpleChanges` record delivered to the control directive:
only whether the `parameters` input changed matters here. -/
structure ControlChanges where
  parameters : Option SimpleChange
  deriving DecidableEq, Repr

/-- An observable effect of the control directive change handling. -/
inductive ControlEffect where
  | consoleWarn (message : String)
  | sdkMutation (control : Nat) (value : Nat)
  | thrownError (message : String)
  deriving DecidableEq, Repr

/-- Modelled from the spec: `YaControlDirective` itself is not under src/
(only its test is).  Per the spec, an incompatible property change
detected after initialization is surfaced as a console warning — the
control is not mutated and no error is raised; before initialization the
change handling does nothing observable. -/
def controlNgOnChanges (st : YaControlState) (changes : ControlChanges) :
    YaControlState × List ControlEffect :=
  match st.control with
  | none => (st, [])
  | some _ =>
    match changes.parameters with
    | none => (st, [])
    | some _ =>
      (st, [ControlEffect.consoleWarn
        "Control does not support dynamic configuration after initialization"])

/-! ## Spec-side descriptions used to state frame properties

These definitions restate, field by field, what the spec claims
`_combineInputs` does; the theorems compare them with the embedded code. -/

/-- The multiroute model the spec says `_combineInputs` leaves behind:
`referencePoints` assigned from the input, the `other` fields of the
previous model (an empty model when it was absent) untouched. -/
def combineInputsSpecModel (m : YandexMultirouteComponent) : MultirouteModel :=
  MultirouteModel.mk m.referencePoints
    ((m.multirouteModel.getD (MultirouteModel.mk none [])).other)

/-- The multiroute child after `_combineInputs`, per the spec: only the
model is replaced. -/
def combineInputsSpecMultiroute (m : YandexMultirouteComponent) :
    YandexMultirouteComponent :=
  YandexMultirouteComponent.mk m.referencePoints (some (combineInputsSpecModel m))
    m.multirouteOptions

/-- The whole component after `_combineInputs`, per the spec: map-state
`zoom` and `center` from the inputs, every multiroute child rebuilt by
`combineInputsSpecMultiroute`, every other field the identity. -/
def combineInputsSpec (c : YandexMapComponent) : YandexMapComponent :=
  YandexMapComponent.mk c.center c.zoom
    (IYandexMapState.mk c.zoom c.center c.mapState.other)
    c.mapOptions c.placemarks (c.multiroutes.map combineInputsSpecMultiroute)
    c.geoObjects

/-! ## Theorems -/

/-- Helper: the embedded `_combineInputs` agrees with its field-by-field
description. -/
theorem combineInputs_eq_spec (c : YandexMapComponent) :
    _combineInputs c = combineInputsSpec c := by
  obtain ⟨center, zoom, ⟨sz, sc, so⟩, opts, ps, ms, gs⟩ := c
  simp only [_combineInputs, combineInputsSpec]
  congr 1
  apply List.map_congr_left
  intro m _
  obtain ⟨rp, mm, mo⟩ := m
  cases mm <;>
    simp [combineInputsSpecMultiroute, combineInputsSpecModel, Option.getD]

/-- C7: for every config object, `AngularYandexMapsModule.forRoot(config)`
returns a `ModuleWithProviders` whose `ngModule` is
`AngularYandexMapsModule` and whose providers list contains exactly one
provider, binding the `YA_MAP_CONFIG` token to the given config object
unchanged. -/
theorem forRoot_provides_config_unchanged (config : Nat) :
    (forRoot config).ngModule = NgModuleRef.AngularYandexMapsModule ∧
    (forRoot config).providers
      = [{ provide := InjectionToken.YA_MAP_CONFIG, useValue := config }] :=
  ⟨rfl, rfl⟩

/-- C4: whenever the `options` input changes after the clusterer has been
created, `ngOnChanges` forwards the new options value unchanged to the
SDK setter `clusterer.options.set`. -/
theorem clusterer_ngOnChanges_forwards_options (st : YaClustererState)
    (cl : Nat) (ch : SimpleChange) (changes : ClustererChanges)
    (hcl : st._clusterer = some cl) (hch : changes.options = some ch) :
    clustererNgOnChanges st changes
      = (st, [ClustererSdkCall.optionsSet cl ch.currentValue]) := by
  simp [clustererNgOnChanges, _updateClusterer, hcl, hch]

/-- Witness for C4 at a concrete directive state and change record. -/
theorem clusterer_ngOnChanges_forwards_options_witness :
    clustererNgOnChanges { _clusterer := some 7 }
        { options := some { currentValue := 42 } }
      = ({ _clusterer := some 7 }, [ClustererSdkCall.optionsSet 7 42]) :=
  clusterer_ngOnChanges_forwards_options { _clusterer := some 7 } 7
    { currentValue := 42 } { options := some { currentValue := 42 } } rfl rfl

/-- C9: if `ngOnChanges` fires on the clusterer directive before
`createClusterer` has been called (the internal clusterer reference is
still unset), the call performs no SDK call and leaves the directive state
unchanged. -/
theorem clusterer_ngOnChanges_noop_before_create (st : YaClustererState)
    (changes : ClustererChanges) (h : st._clusterer = none) :
    clustererNgOnChanges st changes = (st, []) := by
  simp [clustererNgOnChanges, _updateClusterer, h]

/-- Witness for C9 at a concrete directive state and change record. -/
theorem clusterer_ngOnChanges_noop_before_create_witness :
    clustererNgOnChanges { _clusterer := none }
        { options := some { currentValue := 5 } }
      = ({ _clusterer := none }, []) :=
  clusterer_ngOnChanges_noop_before_create { _clusterer := none }
    { options := some { currentValue := 5 } } rfl

/-- C6: when the `parameters` input of a ya-control directive changes
after the control has been initialized, the change is surfaced as exactly
one console warning — no error is raised and the existing control is not
mutated. -/
theorem control_parameters_change_after_init_warns (st : YaControlState)
    (cl : Nat) (ch : SimpleChange) (changes : ControlChanges)
    (hcl : st.control = some cl) (hch : changes.parameters = some ch) :
    controlNgOnChanges st changes
      = (st, [ControlEffect.consoleWarn
          "Control does not support dynamic configuration after initialization"]) := by
  simp [controlNgOnChanges, hcl, hch]

/-- Witness for C6 at a concrete directive state and change record. -/
theorem control_parameters_change_after_init_warns_witness :
    controlNgOnChanges { control := some 1 }
        { parameters := some { currentValue := 9 } }
      = ({ control := some 1 }, [ControlEffect.consoleWarn
          "Control does not support dynamic configuration after initialization"]) :=
  control_parameters_change_after_init_warns { control := some 1 } 1
    { currentValue := 9 } { parameters := some { currentValue := 9 } } rfl rfl

/-- C10: `_combineInputs` modifies only the `zoom` and `center` fields of
the map state (setting them to the `zoom` and `center` inputs, also when
those inputs are undefined) and only the `referencePoints` field of each
multiroute model (creating the model object if absent); every other field
of the component, of the map state and of each multiroute model is left
unchanged. -/
theorem combineInputs_frame (c : YandexMapComponent) :
    _combineInputs c = combineInputsSpec c :=
  combineInputs_eq_spec c

/-- C2: `ngOnInit` subscribes to the map service `initMap` observable and,
on its first emission only, calls `createMap` exactly once, with the
generated unique map id, the combined map state and the `mapOptions`
input; further emissions cause no additional `createMap` call. -/
theorem createMap_called_once_on_first_initMap_emission
    (c : YandexMapComponent) (freshId : String) (es : List Unit)
    (h : es ≠ []) :
    (ngOnInit c freshId es).filter isCreateMap
      = [ServiceCall.createMap freshId
          (IYandexMapState.mk c.zoom c.center c.mapState.other) c.mapOptions] := by
  cases es with
  | nil => exact absurd rfl h
  | cons e es =>
    simp [ngOnInit, _createMapWithObjects, _combineInputs, isCreateMap,
      List.filter_append, List.filter_map, Function.comp]

/-- Witness for C2: a two-emission stream still produces a single
`createMap` call. -/
theorem createMap_called_once_on_first_initMap_emission_witness :
    (ngOnInit (YandexMapComponent.mk (some 1) (some 2)
        (IYandexMapState.mk none none []) 0 [] [] []) "f1" [(), ()]).filter
          isCreateMap
      = [ServiceCall.createMap "f1" (IYandexMapState.mk (some 2) (some 1) []) 0] :=
  createMap_called_once_on_first_initMap_emission
    (YandexMapComponent.mk (some 1) (some 2) (IYandexMapState.mk none none []) 0 [] [] [])
    "f1" [(), ()] (by decide)

/-- C3: when the map is created, every content-child placemark, multiroute
and geo-object is registered via a `createPlacemark`, `createMultiroute`
or `createGeoObject` call — all placemarks first, then all multiroutes,
then all geo-objects — each child exactly once. -/
theorem map_children_registered_in_order
    (c : YandexMapComponent) (freshId : String) (es : List Unit)
    (h : es ≠ []) :
    ngOnInit c freshId es
      = ServiceCall.createMap freshId
          (IYandexMapState.mk c.zoom c.center c.mapState.other) c.mapOptions ::
        (c.placemarks.map fun p =>
          ServiceCall.createPlacemark p.geometry p.placemarkProperties
            p.placemarkOptions) ++
        (c.multiroutes.map fun m =>
          ServiceCall.createMultiroute (some (combineInputsSpecModel m))
            m.multirouteOptions) ++
        (c.geoObjects.map fun g =>
          ServiceCall.createGeoObject g.geoObjectFeature g.geoObjectOptions) := by
  cases es with
  | nil => exact absurd rfl h
  | cons e es =>
    simp [ngOnInit, _createMapWithObjects, combineInputs_eq_spec,
      combineInputsSpec, List.map_map, Function.comp, combineInputsSpecMultiroute]

/-- Witness for C3 at a concrete component with one child of each kind. -/
theorem map_children_registered_in_order_witness :
    ngOnInit (YandexMapComponent.mk none none (IYandexMapState.mk none none []) 0
        [YandexPlacemarkComponent.mk 1 2 3]
        [YandexMultirouteComponent.mk (some 4) none 5]
        [YandexGeoobjectComponent.mk 6 7]) "f2" [()]
      = [ServiceCall.createMap "f2" (IYandexMapState.mk none none []) 0,
         ServiceCall.createPlacemark 1 2 3,
         ServiceCall.createMultiroute (some (MultirouteModel.mk (some 4) [])) 5,
         ServiceCall.createGeoObject 6 7] :=
  map_children_registered_in_order
    (YandexMapComponent.mk none none (IYandexMapState.mk none none []) 0
      [YandexPlacemarkComponent.mk 1 2 3]
      [YandexMultirouteComponent.mk (some 4) none 5]
      [YandexGeoobjectComponent.mk 6 7]) "f2" [()] (by decide)

/-- C5 counterexample: a component whose `mapState` input carries a zoom
while the `zoom` input is undefined; the state object passed to
`createMap` is not the user-supplied `mapState` input, because
`_combineInputs` overwrites its `zoom` and `center` fields first. -/
theorem createMap_state_differs_from_input_mapState :
    createMapStateArg (ngOnInit
        (YandexMapComponent.mk none none (IYandexMapState.mk (some 5) none []) 0 [] [] [])
        "f3" [()])
      ≠ some (YandexMapComponent.mk none none
          (IYandexMapState.mk (some 5) none []) 0 [] [] []).mapState := by
  decide

/-- C5 amended: the state object passed to `createMap` is the
user-supplied `mapState` input with exactly its `zoom` and `center` fields
overwritten by the `zoom` and `center` inputs; every other field is passed
through unchanged. -/
theorem createMap_state_is_combined_mapState
    (c : YandexMapComponent) (freshId : String) (es : List Unit)
    (h : es ≠ []) :
    createMapStateArg (ngOnInit c freshId es)
      = some (IYandexMapState.mk c.zoom c.center c.mapState.other) := by
  cases es with
  | nil => exact absurd rfl h
  | cons e es =>
    simp [createMapStateArg, ngOnInit, _createMapWithObjects, _combineInputs]

/-- Witness for the amended C5 at a concrete component. -/
theorem createMap_state_is_combined_mapState_witness :
    createMapStateArg (ngOnInit
        (YandexMapComponent.mk (some 9) none (IYandexMapState.mk (some 5) none [("t", 1)])
          0 [] [] []) "f4" [()])
      = some (IYandexMapState.mk none (some 9) [("t", 1)]) :=
  createMap_state_is_combined_mapState
    (YandexMapComponent.mk (some 9) none (IYandexMapState.mk (some 5) none [("t", 1)])
      0 [] [] []) "f4" [()] (by decide)

/-- C1: after `createClusterer` ran, an SDK event of original type
`hintopen` or `hintclose` makes the `hint` output emit, and events of type
`mapchange`, `optionschange` and `parentchange` make the `mapChange`,
`optionsChange` and `parentChange` outputs emit respectively; each
emission carries the clusterer instance and the original event type. -/
theorem clusterer_events_routed_to_outputs (cl : Nat) (e : ClustererSdkEvent) :
    (e.eventType = "hintopen" ∨ e.eventType = "hintclose" →
      deliverClustererEvent cl e
        = [ClustererEmission.mk ClustererOutput.hint cl e.eventType]) ∧
    (e.eventType = "mapchange" →
      deliverClustererEvent cl e
        = [ClustererEmission.mk ClustererOutput.mapChange cl e.eventType]) ∧
    (e.eventType = "optionschange" →
      deliverClustererEvent cl e
        = [ClustererEmission.mk ClustererOutput.optionsChange cl e.eventType]) ∧
    (e.eventType = "parentchange" →
      deliverClustererEvent cl e
        = [ClustererEmission.mk ClustererOutput.parentChange cl e.eventType]) := by
  obtain ⟨t⟩ := e
  refine ⟨fun h => ?_, fun h => ?_, fun h => ?_, fun h => ?_⟩
  · rcases h with h | h <;> subst h <;> rfl
  · subst h; rfl
  · subst h; rfl
  · subst h; rfl

/-- Witness for C1: each of the five event types routed at a concrete
clusterer instance. -/
theorem clusterer_events_routed_to_outputs_witness :
    deliverClustererEvent 3 (ClustererSdkEvent.mk "hintopen")
      = [ClustererEmission.mk ClustererOutput.hint 3 "hintopen"] ∧
    deliverClustererEvent 3 (ClustererSdkEvent.mk "hintclose")
      = [ClustererEmission.mk ClustererOutput.hint 3 "hintclose"] ∧
    deliverClustererEvent 3 (ClustererSdkEvent.mk "mapchange")
      = [ClustererEmission.mk ClustererOutput.mapChange 3 "mapchange"] ∧
    deliverClustererEvent 3 (ClustererSdkEvent.mk "optionschange")
      = [ClustererEmission.mk ClustererOutput.optionsChange 3 "optionschange"] ∧
    deliverClustererEvent 3 (ClustererSdkEvent.mk "parentchange")
      = [ClustererEmission.mk ClustererOutput.parentChange 3 "parentchange"] :=
  ⟨(clusterer_events_routed_to_outputs 3 (ClustererSdkEvent.mk "hintopen")).1
      (Or.inl rfl),
   (clusterer_events_routed_to_outputs 3 (ClustererSdkEvent.mk "hintclose")).1
      (Or.inr rfl),
   (clusterer_events_routed_to_outputs 3 (ClustererSdkEvent.mk "mapchange")).2.1 rfl,
   (clusterer_events_routed_to_outputs 3
      (ClustererSdkEvent.mk "optionschange")).2.2.1 rfl,
   (clusterer_events_routed_to_outputs 3
      (ClustererSdkEvent.mk "parentchange")).2.2.2 rfl⟩

/-- Helper: one emission pass does not change the identities of the
children, only their `id` marks. -/
theorem processChildrenEmission_map_pid (cs : List ClustererChild) :
    (processChildrenEmission cs).1.map ClustererChild.pid
      = cs.map ClustererChild.pid := by
  induction cs with
  | nil => rfl
  | cons c cs ih =>
    cases hid : c.id <;>
      simp [processChildrenEmission, hid, createChild, ih]

/-- Helper: the handles added by one emission pass are exactly the
identities of the children whose `id` was unset. -/
theorem processChildrenEmission_adds (cs : List ClustererChild) :
    (processChildrenEmission cs).2
      = (cs.filter fun c => c.id.isNone).map ClustererChild.pid := by
  induction cs with
  | nil => rfl
  | cons c cs ih =>
    cases hid : c.id <;>
      simp [processChildrenEmission, hid, createChild, ih, List.filter_cons]

/-- Helper: after one emission pass no child has an unset `id` any more. -/
theorem processChildrenEmission_filter_none (cs : List ClustererChild) :
    ((processChildrenEmission cs).1.filter fun c => c.id.isNone) = [] := by
  induction cs with
  | nil => rfl
  | cons c cs ih =>
    cases hid : c.id <;>
      simp [processChildrenEmission, hid, createChild, ih, List.filter_cons]

/-- Helper: every handle in the add trace belongs to an initially unmarked
child or to a child that entered during the stream. -/
theorem runClustererEvents_trace_subset (es : List ClustererStreamEvent) :
    ∀ cs : List ClustererChild,
      (runClustererEvents cs es).2 ⊆
        ((cs.filter fun c => c.id.isNone).map ClustererChild.pid) ++ newPids es := by
  induction es with
  | nil =>
    intro cs a ha
    simp [runClustererEvents] at ha
  | cons ev es ih =>
    intro cs
    cases ev with
    | listEmit =>
      intro a ha
      simp only [runClustererEvents] at ha
      rcases List.mem_append.mp ha with h1 | h2
      · rw [processChildrenEmission_adds] at h1
        exact List.mem_append.mpr (Or.inl h1)
      · have h3 := ih (processChildrenEmission cs).1 h2
        rw [processChildrenEmission_filter_none] at h3
        simp only [List.map_nil, List.nil_append] at h3
        exact List.mem_append.mpr (Or.inr h3)
    | newChild pid =>
      intro a ha
      simp only [runClustererEvents] at ha
      have h := ih (cs ++ [ClustererChild.mk pid none]) ha
      rw [List.filter_append, List.map_append] at h
      simp only [newPids]
      simp only [List.mem_append] at h ⊢
      rcases h with h | h
      · rcases h with h | h
        · exact Or.inl h
        · simp at h
          subst h
          exact Or.inr (List.mem_cons_self _ _)
      · exact Or.inr (List.mem_cons_of_mem _ h)

/-- Helper: with pairwise distinct child identities, the add trace repeats
no identity, and a child whose `id` is already set is never added. -/
theorem runClustererEvents_nodup (es : List ClustererStreamEvent) :
    ∀ cs : List ClustererChild,
      ((cs.map ClustererChild.pid) ++ newPids es).Nodup →
      (runClustererEvents cs es).2.Nodup ∧
      ∀ c ∈ cs, c.id.isSome = true →
        c.pid ∉ (runClustererEvents cs es).2 := by
  induction es with
  | nil =>
    intro cs h
    constructor <;> simp [runClustererEvents]
  | cons ev es ih =>
    intro cs h
    cases ev with
    | listEmit =>
      simp only [newPids] at h
      obtain ⟨hnd_cs, hnd_new, hdisj⟩ := List.nodup_append.mp h
      have hpid := processChildrenEmission_map_pid cs
      obtain ⟨ihnd, ihnotin⟩ := ih (processChildrenEmission cs).1 (by
        rw [hpid]; exact h)
      have hsub : (runClustererEvents (processChildrenEmission cs).1 es).2 ⊆
          newPids es := by
        intro a ha
        have h3 := runClustererEvents_trace_subset es (processChildrenEmission cs).1 ha
        rw [processChildrenEmission_filter_none] at h3
        simpa using h3
      have hadds_nodup : (processChildrenEmission cs).2.Nodup := by
        rw [processChildrenEmission_adds]
        exact ((List.filter_sublist cs).map ClustererChild.pid).nodup hnd_cs
      have hadds_sub : (processChildrenEmission cs).2 ⊆
          cs.map ClustererChild.pid := by
        rw [processChildrenEmission_adds]
        exact ((List.filter_sublist cs).map ClustererChild.pid).subset
      constructor
      · simp only [runClustererEvents]
        refine List.nodup_append.mpr ⟨hadds_nodup, ihnd, ?_⟩
        intro a ha hb
        exact hdisj (hadds_sub ha) (hsub hb)
      · intro c hc hs
        simp only [runClustererEvents, List.mem_append]
        rintro (hmem | hmem)
        · rw [processChildrenEmission_adds] at hmem
          obtain ⟨d, hd, hdp⟩ := List.mem_map.mp hmem
          have hd_cs := List.mem_of_mem_filter hd
          have hd_none := List.of_mem_filter hd
          have : d = c :=
            List.inj_on_of_nodup_map hnd_cs hd_cs hc hdp
          subst this
          rw [Option.isNone_iff_eq_none] at hd_none
          rw [hd_none] at hs
          cases hs
        · exact hdisj (List.mem_map_of_mem ClustererChild.pid hc) (hsub hmem)
    | newChild pid =>
      simp only [newPids] at h
      obtain ⟨ihnd, ihnotin⟩ := ih (cs ++ [ClustererChild.mk pid none]) (by
        simpa [List.append_assoc] using h)
      constructor
      · simpa only [runClustererEvents] using ihnd
      · intro c hc hs
        simp only [runClustererEvents]
        exact ihnotin c (List.mem_append.mpr (Or.inl hc)) hs

/-- C8: on every emission of the placemark or geo-object content-children
lists, only children whose `id` field is unset are added to the clusterer;
consequently, as long as child identities are pairwise distinct, each
child is added at most once no matter how often the lists re-emit, and a
child already marked when `createClusterer` runs is never added. -/
theorem clusterer_adds_each_child_at_most_once
    (initial : List ClustererChild) (es : List ClustererStreamEvent)
    (h : ((initial.map ClustererChild.pid) ++ newPids es).Nodup) :
    (clustererChildrenTrace initial es).Nodup ∧
    ∀ c ∈ initial, c.id.isSome = true →
      c.pid ∉ clustererChildrenTrace initial es := by
  have hmain := runClustererEvents_nodup
    (ClustererStreamEvent.listEmit :: es) initial (by simpa [newPids] using h)
  simpa [clustererChildrenTrace] using hmain

/-- Witness for C8: two initial children (one already marked), one child
entering later, two emissions; the add trace repeats nobody and skips the
marked child. -/
theorem clusterer_adds_each_child_at_most_once_witness :
    (clustererChildrenTrace [ClustererChild.mk 1 none, ClustererChild.mk 2 (some "x")]
        [ClustererStreamEvent.newChild 3, ClustererStreamEvent.listEmit]).Nodup ∧
    (2 : Nat) ∉ clustererChildrenTrace
        [ClustererChild.mk 1 none, ClustererChild.mk 2 (some "x")]
        [ClustererStreamEvent.newChild 3, ClustererStreamEvent.listEmit] :=
  ⟨(clusterer_adds_each_child_at_most_once
      [ClustererChild.mk 1 none, ClustererChild.mk 2 (some "x")]
      [ClustererStreamEvent.newChild 3, ClustererStreamEvent.listEmit]
      (by decide)).1,
   (clusterer_adds_each_child_at_most_once
      [ClustererChild.mk 1 none, ClustererChild.mk 2 (some "x")]
      [ClustererStreamEvent.newChild 3, ClustererStreamEvent.listEmit]
      (by decide)).2
      (ClustererChild.mk 2 (some "x")) (by decide) (by decide)⟩

end NgYandexMap
